import Mathlib

/-
Verification development for the samosa-angle-detecter repository.

The repository is a single-page React application (src/App.jsx).  The logic
verified here is the response-ingestion pipeline `processGeminiResponse`
(refusal scan, greedy brace extraction, JSON.parse, truthiness shape check,
and the surrounding catch block that rewrites messages containing "JSON"),
the image encoder `getImageData`, and the upload/analyzing/result interaction
state machine driven by `onImageChange`.

JavaScript strings are embedded as Lean `String` / `List Char`; JavaScript
exceptions become `Except String`; the value returned by `JSON.parse` is the
`Json` inductive below.
-/

namespace Samosa

/-- A JavaScript value as produced by a successful `JSON.parse`.  A numeric
literal is kept exactly as mantissa times ten to the power `exp10`, so `85`
is `num 85 0`. -/
inductive Json where
  | null
  | bool (b : Bool)
  | num (mantissa : Int) (exp10 : Int)
  | str (s : String)
  | arr (elems : List Json)
  | obj (fields : List (String × Json))

/-- JavaScript truthiness of a JSON value: `null`, `false`, the number zero
and the empty string are falsy; every array and object (even empty) is
truthy. -/
def truthy : Json → Bool
  | Json.null => false
  | Json.bool b => b
  | Json.num m _ => decide (m ≠ 0)
  | Json.str s => decide (s ≠ "")
  | Json.arr _ => true
  | Json.obj _ => true

/-- Property access `v.k` in JavaScript on a parsed JSON value: defined only
on objects, `none` stands for `undefined`.  On duplicate keys `JSON.parse`
keeps the last occurrence, hence the reversed search. -/
def Json.getField : Json → String → Option Json
  | Json.obj fields, k => (fields.reverse.find? (fun p => p.1 == k)).map (fun p => p.2)
  | _, _ => none

/-- Truthiness through possible `undefined` (JavaScript `!v.k`). -/
def truthyOpt : Option Json → Bool
  | none => false
  | some v => truthy v

/-! ### JSON.parse, embedded as a fuel-indexed recursive descent parser -/

/-- Insignificant whitespace accepted by `JSON.parse`. -/
def isJsonWs (c : Char) : Bool := c = ' ' || c = '\t' || c = '\n' || c = '\r'

/-- Drop leading JSON whitespace. -/
def skipWs (cs : List Char) : List Char := cs.dropWhile isJsonWs

/-- Value of one hexadecimal digit, if any (code points 48-57 are the
decimal digits, 97-102 lowercase a-f, 65-70 uppercase A-F). -/
def hexDigit (c : Char) : Option Nat :=
  let n := c.toNat
  if 48 ≤ n && n ≤ 57 then some (n - 48)
  else if 97 ≤ n && n ≤ 102 then some (n - 87)
  else if 65 ≤ n && n ≤ 70 then some (n - 55)
  else none

/-- Single-character string escapes of JSON. -/
def escChar : Char → Option Char
  | '"' => some '"'
  | '\\' => some '\\'
  | '/' => some '/'
  | 'b' => some '\x08'
  | 'f' => some '\x0c'
  | 'n' => some '\n'
  | 'r' => some '\r'
  | 't' => some '\t'
  | _ => none

/-- Read the body of a JSON string literal after its opening quote, up to and
consuming the closing quote; yields the decoded characters and the rest of
the input. -/
def parseStringChars : List Char → Option (List Char × List Char)
  | [] => none
  | '"' :: rest => some ([], rest)
  | '\\' :: 'u' :: h1 :: h2 :: h3 :: h4 :: rest =>
    match hexDigit h1, hexDigit h2, hexDigit h3, hexDigit h4 with
    | some a, some b, some c, some d =>
      (parseStringChars rest).map
        (fun p => (Char.ofNat (((a * 16 + b) * 16 + c) * 16 + d) :: p.1, p.2))
    | _, _, _, _ => none
  | '\\' :: e :: rest =>
    match escChar e with
    | some c => (parseStringChars rest).map (fun p => (c :: p.1, p.2))
    | none => none
  | c :: rest => (parseStringChars rest).map (fun p => (c :: p.1, p.2))

/-- Numeric value of a digit run. -/
def digitsToNat (ds : List Char) : Nat :=
  ds.foldl (fun a c => a * 10 + (c.toNat - '0'.toNat)) 0

/-- Parse a JSON numeric literal: optional minus, integer digits, optional
fraction, optional exponent; the exact value is kept as mantissa and a power
of ten. -/
def parseNumber (cs : List Char) : Option (Json × List Char) :=
  let signed : Bool × List Char :=
    match cs with
    | '-' :: t => (true, t)
    | _ => (false, cs)
  let (ids, cs2) := signed.2.span Char.isDigit
  if ids.isEmpty then none
  else
    let fracPart : Option (List Char × List Char) :=
      match cs2 with
      | '.' :: t =>
        let (fds, cs3) := t.span Char.isDigit
        if fds.isEmpty then none else some (fds, cs3)
      | _ => some ([], cs2)
    match fracPart with
    | none => none
    | some (fds, cs3) =>
      let mNat : Nat := digitsToNat (ids ++ fds)
      let m : Int := if signed.1 then -(mNat : Int) else (mNat : Int)
      match cs3 with
      | 'e' :: t | 'E' :: t =>
        let esigned : Int × List Char :=
          match t with
          | '+' :: r => (1, r)
          | '-' :: r => (-1, r)
          | _ => (1, t)
        let (eds, t2) := esigned.2.span Char.isDigit
        if eds.isEmpty then none
        else some (Json.num m (esigned.1 * (digitsToNat eds : Int) - (fds.length : Int)), t2)
      | _ => some (Json.num m (0 - (fds.length : Int)), cs3)

mutual

/-- Parse one JSON value, returning it with the unconsumed rest of the input.
The `fuel` argument only guarantees termination; the top-level entry point
supplies more than enough of it. -/
def parseValue : Nat → List Char → Option (Json × List Char)
  | 0, _ => none
  | fuel + 1, cs =>
    match skipWs cs with
    | 'n' :: 'u' :: 'l' :: 'l' :: rest => some (Json.null, rest)
    | 't' :: 'r' :: 'u' :: 'e' :: rest => some (Json.bool true, rest)
    | 'f' :: 'a' :: 'l' :: 's' :: 'e' :: rest => some (Json.bool false, rest)
    | '"' :: rest =>
      match parseStringChars rest with
      | some (s, rest2) => some (Json.str (String.mk s), rest2)
      | none => none
    | '[' :: rest =>
      match skipWs rest with
      | ']' :: rest2 => some (Json.arr [], rest2)
      | _ =>
        match parseItems fuel (skipWs rest) with
        | some (vs, rest2) => some (Json.arr vs, rest2)
        | none => none
    | '\x7b' :: rest =>
      match skipWs rest with
      | '\x7d' :: rest2 => some (Json.obj [], rest2)
      | _ =>
        match parseFields fuel (skipWs rest) with
        | some (fs, rest2) => some (Json.obj fs, rest2)
        | none => none
    | other => parseNumber other

/-- Parse the comma-separated items of a non-empty JSON array, consuming the
closing bracket. -/
def parseItems : Nat → List Char → Option (List Json × List Char)
  | 0, _ => none
  | fuel + 1, cs =>
    match parseValue fuel cs with
    | none => none
    | some (v, rest) =>
      match skipWs rest with
      | ',' :: rest2 =>
        match parseItems fuel rest2 with
        | some (vs, rest3) => some (v :: vs, rest3)
        | none => none
      | ']' :: rest2 => some ([v], rest2)
      | _ => none

/-- Parse the comma-separated members of a non-empty JSON object, consuming
the closing brace. -/
def parseFields : Nat → List Char → Option (List (String × Json) × List Char)
  | 0, _ => none
  | fuel + 1, cs =>
    match skipWs cs with
    | '"' :: rest =>
      match parseStringChars rest with
      | none => none
      | some (k, rest2) =>
        match skipWs rest2 with
        | ':' :: rest3 =>
          match parseValue fuel rest3 with
          | none => none
          | some (v, rest4) =>
            match skipWs rest4 with
            | ',' :: rest5 =>
              match parseFields fuel rest5 with
              | some (fs, rest6) => some ((String.mk k, v) :: fs, rest6)
              | none => none
            | '\x7d' :: rest5 => some ([(String.mk k, v)], rest5)
            | _ => none
        | _ => none
    | _ => none

end

/-- The whole of `JSON.parse text`: one value, nothing but whitespace
around it; `none` models the `SyntaxError` throw. -/
def Json.parse (cs : List Char) : Option Json :=
  match parseValue (2 * cs.length + 2) cs with
  | some (v, rest) => if skipWs rest = [] then some v else none
  | none => none

/-! ### The response validator `processGeminiResponse` (src/App.jsx) -/

/-- Substring containment, `haystack.includes(needle)` of JavaScript, over
character lists. -/
def containsSub : List Char → List Char → Bool
  | [], pat => pat.isEmpty
  | c :: t, pat => pat.isPrefixOf (c :: t) || containsSub t pat

/-- Characters of `s.toLowerCase()` (the inputs at stake are ASCII, where
`Char.toLower` agrees with the JavaScript method). -/
def lowerChars (s : String) : List Char := s.toList.map Char.toLower

/-- The refusal scan of `processGeminiResponse`:
`responseText.toLowerCase().includes("sorry") ||
 responseText.toLowerCase().includes("unable to")`. -/
def refusalDetected (s : String) : Bool :=
  containsSub (lowerChars s) "sorry".toList || containsSub (lowerChars s) "unable to".toList

/-- Extraction by the regular expression match with pattern
brace, any characters, brace (greedy): the leftmost match runs from the
first opening brace of the text to the last closing brace, and exists
exactly when some opening brace has a closing brace strictly after it. -/
def extractJson (cs : List Char) : Option (List Char) :=
  let fromBrace := cs.dropWhile (fun c => !(c = '\x7b'))
  let span := (fromBrace.reverse.dropWhile (fun c => !(c = '\x7d'))).reverse
  if 2 ≤ span.length then some span else none

/-- Message of the error thrown when the refusal scan fires
(`NoSubjectDetectedError` of the specification). -/
def noSubjectDetectedMsg : String :=
  "No samosa detected in the image. Please upload a clear image of a samosa."

/-- Message of the error thrown when no braced span is found
(`NoStructuredPayloadError` of the specification). -/
def noStructuredPayloadMsg : String :=
  "Could not get a proper analysis. Please try with a clearer image of a samosa."

/-- A representative `SyntaxError` message of a failing `JSON.parse`; the
code never shows it to the user, it only tests that it contains "JSON"
(which the message of every mainstream engine does). -/
def jsonSyntaxErrorMsg : String := "Unexpected token in JSON at position 0"

/-- Message of the error the catch block substitutes for a `JSON.parse`
failure. -/
def parseFailureMsg : String :=
  "Could not analyze the image properly. Please try with a different image."

/-- Message of the error thrown by the shape check
(`InvalidAnalysisShapeError` of the specification). -/
def invalidAnalysisShapeMsg : String :=
  "Invalid analysis format. Please try again with a different image."

/-- The shape check of `processGeminiResponse`:
`if (!analysisData || !analysisData.score || !analysisData.corners) throw ...`. -/
def validateShape (analysisData : Json) : Except String Json :=
  if !(truthy analysisData) || !(truthyOpt (analysisData.getField "score"))
      || !(truthyOpt (analysisData.getField "corners")) then
    Except.error invalidAnalysisShapeMsg
  else
    Except.ok analysisData

/-- The validator `processGeminiResponse(responseText)` of src/App.jsx: the
try block runs the refusal scan, the greedy brace extraction, `JSON.parse`
and the shape check in that order; the catch block re-throws every error,
replacing any whose message contains "JSON" (a parse `SyntaxError`) by
`parseFailureMsg`. -/
def processGeminiResponse (responseText : String) : Except String Json :=
  let attempt : Except String Json :=
    if refusalDetected responseText then
      Except.error noSubjectDetectedMsg
    else
      match extractJson responseText.toList with
      | none => Except.error noStructuredPayloadMsg
      | some span =>
        match Json.parse span with
        | none => Except.error jsonSyntaxErrorMsg
        | some analysisData => validateShape analysisData
  match attempt with
  | Except.error m =>
    Except.error (if containsSub m.toList "JSON".toList then parseFailureMsg else m)
  | Except.ok v => Except.ok v

/-! ### The image encoder `getImageData` (src/App.jsx)

Modelled from the spec: the browser primitive `FileReader.readAsDataURL`
(not part of the repository) yields the string
`"data:<media type>;base64," ++ <base64 of the file bytes>`; the base64
codec below is the standard RFC 4648 alphabet with `=` padding that the
primitive uses. -/

/-- A file as the change handler receives it: a declared media type and the
binary contents as byte values. -/
structure JsFile where
  type : String
  bytes : List Nat

/-- The base64 alphabet in value order. -/
def base64Chars : List Char :=
  "ABCDEFGHIJKLMNOPQRSTUVWXYZabcdefghijklmnopqrstuvwxyz0123456789+/".toList

/-- Character of a six-bit value. -/
def sextetChar (n : Nat) : Char := base64Chars.getD n '='

/-- Six-bit value of an alphabet character (the inverse lookup). -/
def charSextet (c : Char) : Nat := base64Chars.indexOf c

/-- Base64 encoding of a byte sequence, three bytes to four characters, with
`=` padding on a short final group. -/
def b64encode : List Nat → List Char
  | [] => []
  | [b1] => [sextetChar (b1 / 4), sextetChar (b1 % 4 * 16), '=', '=']
  | [b1, b2] =>
    [sextetChar (b1 / 4), sextetChar (b1 % 4 * 16 + b2 / 16), sextetChar (b2 % 16 * 4), '=']
  | b1 :: b2 :: b3 :: rest =>
    sextetChar (b1 / 4) :: sextetChar (b1 % 4 * 16 + b2 / 16) ::
    sextetChar (b2 % 16 * 4 + b3 / 64) :: sextetChar (b3 % 64) :: b64encode rest

/-- Base64 decoding, four characters to three bytes, honouring `=` padding
in the final group. -/
def b64decode : List Char → List Nat
  | a :: b :: c :: d :: rest =>
    if d = '=' then
      if c = '=' then
        [charSextet a * 4 + charSextet b / 16]
      else
        [charSextet a * 4 + charSextet b / 16, charSextet b % 16 * 16 + charSextet c / 4]
    else
      (charSextet a * 4 + charSextet b / 16) ::
      (charSextet b % 16 * 16 + charSextet c / 4) ::
      (charSextet c % 4 * 64 + charSextet d) :: b64decode rest
  | _ => []

/-- The `reader.result` of `readAsDataURL`: header, one comma, payload. -/
def dataUrlHeader (mime : String) : List Char :=
  "data:".toList ++ mime.toList ++ ";base64".toList

/-- Full data URL of a file. -/
def dataUrl (f : JsFile) : List Char := dataUrlHeader f.type ++ ',' :: b64encode f.bytes

/-- JavaScript `String.prototype.split` with a one-character separator
(every occurrence splits; no limit). -/
def jsSplit (sep : Char) : List Char → List (List Char)
  | [] => [[]]
  | c :: rest =>
    if c = sep then [] :: jsSplit sep rest
    else
      match jsSplit sep rest with
      | h :: t => (c :: h) :: t
      | [] => [[c]]

/-- Message of the error thrown on a missing or non-image file
(`InvalidInputError` of the specification). -/
def invalidInputMsg : String := "Invalid file type. Please upload an image file."

/-- Message of the rejection when the stripped payload is empty
(`EncodingError` of the specification). -/
def encodingFailedMsg : String := "Failed to convert image to base64"

/-- JavaScript `file.type.startsWith('image/')`, over characters. -/
def isImageType (mime : String) : Bool := "image/".toList.isPrefixOf mime.toList

/-- The encoder `getImageData(file)` of src/App.jsx: reject a missing file or
one whose declared media type does not start with "image/"; otherwise read
the data URL and keep `reader.result.split(',')[1]`, rejecting an empty or
absent payload. -/
def getImageData (file : Option JsFile) : Except String (List Char) :=
  match file with
  | none => Except.error invalidInputMsg
  | some f =>
    if !(isImageType f.type) then Except.error invalidInputMsg
    else
      let base64Data := (jsSplit ',' (dataUrl f)).getD 1 []
      if base64Data.isEmpty then Except.error encodingFailedMsg
      else Except.ok base64Data

/-! ### The interaction state machine (src/App.jsx) -/

/-- The React state of `SamosaSharpnessAnalyzer`: the five `useState` hooks.
The object URL of the uploaded image is modelled by the file itself; `step`
is one of "upload", "analyzing", "result". -/
structure SessionState where
  image : Option JsFile
  step : String
  currentMessageIndex : Nat
  score : Option Json
  analysis : Option Json

/-- The initial session: `useState(null)`, `useState("upload")`,
`useState(0)`, `useState(null)`, `useState(null)`. -/
def initState : SessionState :=
  { image := none, step := "upload", currentMessageIndex := 0, score := none, analysis := none }

/-- Click handler of the "Analyze Another Samosa" button:
`onClick=\x7b() => setStep("upload")\x7d` — it touches no other state. -/
def analyzeAnotherClick (st : SessionState) : SessionState := { st with step := "upload" }

/-- One completed run of `onImageChange` followed by `analyzeImage`: `file`
is `e.target.files[0]` (`none` when absent), `gemini` stands for the outcome
of the external `generateContent` call (the raw reply text on success).  The
returned flag records whether that external call was issued.  On any thrown
error the handler alerts and resets the step to "upload". -/
def runPipeline (st : SessionState) (file : Option JsFile) (gemini : Except String String) :
    SessionState × Bool :=
  match file with
  | none => (st, false)
  | some f =>
    let st1 : SessionState :=
      { st with image := some f, step := "analyzing", currentMessageIndex := 0,
                score := none, analysis := none }
    match getImageData (some f) with
    | Except.error _ => ({ st1 with step := "upload" }, false)
    | Except.ok _ =>
      match gemini with
      | Except.error _ => ({ st1 with step := "upload" }, true)
      | Except.ok responseText =>
        match processGeminiResponse responseText with
        | Except.error _ => ({ st1 with step := "upload" }, true)
        | Except.ok analysisData =>
          ({ st1 with score := analysisData.getField "score",
                      analysis := some analysisData, step := "result" }, true)

/-- Whether one full pipeline run succeeds: the encode step, the external
inference call and the response validation all return ok. -/
def pipelineOk (f : JsFile) (gemini : Except String String) : Bool :=
  match getImageData (some f), gemini with
  | Except.ok _, Except.ok r =>
    match processGeminiResponse r with
    | Except.ok _ => true
    | Except.error _ => false
  | _, _ => false

/-- The corner observation of the worked examples of the specification. -/
def cornerObsEx : Json :=
  Json.obj [("name", Json.str "Top"), ("angle", Json.num 60 0), ("comment", Json.str "Crispy")]

/-- A session sitting on the result view with a stored score and analysis. -/
def resultStateEx : SessionState :=
  { image := none, step := "result", currentMessageIndex := 0,
    score := some (Json.num 85 0),
    analysis := some (Json.obj [("score", Json.num 85 0), ("corners", Json.arr [])]) }

/-- A file whose declared media type is not an image type. -/
def badFileEx : JsFile := { type := "text/plain", bytes := [7] }

/-! ### Helper lemmas: base64 and splitting -/

theorem charSextet_sextetChar (n : Nat) (h : n < 64) : charSextet (sextetChar n) = n := by
  interval_cases n <;> rfl

theorem sextetChar_ne_pad (n : Nat) (h : n < 64) : ¬(sextetChar n = '=') := by
  interval_cases n <;> decide

theorem comma_ne_sextetChar (n : Nat) (h : n < 64) : ¬(',' = sextetChar n) := by
  interval_cases n <;> decide

theorem b64decode_b64encode :
    ∀ bs : List Nat, (∀ b ∈ bs, b < 256) → b64decode (b64encode bs) = bs
  | [], _ => rfl
  | [b1], h => by
    have hb1 : b1 < 256 := h b1 (by simp)
    simp [b64encode, b64decode, charSextet_sextetChar (b1 / 4) (by omega),
      charSextet_sextetChar (b1 % 4 * 16) (by omega)]
    omega
  | [b1, b2], h => by
    have hb1 : b1 < 256 := h b1 (by simp)
    have hb2 : b2 < 256 := h b2 (by simp)
    simp [b64encode, b64decode, sextetChar_ne_pad (b2 % 16 * 4) (by omega),
      charSextet_sextetChar (b1 / 4) (by omega),
      charSextet_sextetChar (b1 % 4 * 16 + b2 / 16) (by omega),
      charSextet_sextetChar (b2 % 16 * 4) (by omega)]
    omega
  | b1 :: b2 :: b3 :: rest, h => by
    have hb1 : b1 < 256 := h b1 (by simp)
    have hb2 : b2 < 256 := h b2 (by simp)
    have hb3 : b3 < 256 := h b3 (by simp)
    have ih := b64decode_b64encode rest (fun b hb => h b (by simp [hb]))
    simp [b64encode, b64decode, sextetChar_ne_pad (b3 % 64) (by omega),
      charSextet_sextetChar (b1 / 4) (by omega),
      charSextet_sextetChar (b1 % 4 * 16 + b2 / 16) (by omega),
      charSextet_sextetChar (b2 % 16 * 4 + b3 / 64) (by omega),
      charSextet_sextetChar (b3 % 64) (by omega), ih]
    omega

theorem b64encode_ne_nil : ∀ bs : List Nat, bs ≠ [] → b64encode bs ≠ []
  | [], h => absurd rfl h
  | [_], _ => by simp [b64encode]
  | [_, _], _ => by simp [b64encode]
  | _ :: _ :: _ :: _, _ => by simp [b64encode]

theorem comma_not_in_b64encode :
    ∀ bs : List Nat, (∀ b ∈ bs, b < 256) → ',' ∉ b64encode bs
  | [], _ => by simp [b64encode]
  | [b1], h => by
    have hb1 : b1 < 256 := h b1 (by simp)
    simp [b64encode, comma_ne_sextetChar (b1 / 4) (by omega),
      comma_ne_sextetChar (b1 % 4 * 16) (by omega)]
  | [b1, b2], h => by
    have hb1 : b1 < 256 := h b1 (by simp)
    have hb2 : b2 < 256 := h b2 (by simp)
    simp [b64encode, comma_ne_sextetChar (b1 / 4) (by omega),
      comma_ne_sextetChar (b1 % 4 * 16 + b2 / 16) (by omega),
      comma_ne_sextetChar (b2 % 16 * 4) (by omega)]
  | b1 :: b2 :: b3 :: rest, h => by
    have hb1 : b1 < 256 := h b1 (by simp)
    have hb2 : b2 < 256 := h b2 (by simp)
    have hb3 : b3 < 256 := h b3 (by simp)
    have ih := comma_not_in_b64encode rest (fun b hb => h b (by simp [hb]))
    simp [b64encode, comma_ne_sextetChar (b1 / 4) (by omega),
      comma_ne_sextetChar (b1 % 4 * 16 + b2 / 16) (by omega),
      comma_ne_sextetChar (b2 % 16 * 4 + b3 / 64) (by omega),
      comma_ne_sextetChar (b3 % 64) (by omega), ih]

theorem jsSplit_of_not_mem (sep : Char) : ∀ l : List Char, sep ∉ l → jsSplit sep l = [l]
  | [], _ => rfl
  | c :: rest, h => by
    have h1 : ¬(c = sep) := by intro e; apply h; simp [e]
    have h2 : sep ∉ rest := by intro hr; apply h; simp [hr]
    simp [jsSplit, h1, jsSplit_of_not_mem sep rest h2]

theorem jsSplit_single_sep (sep : Char) :
    ∀ xs ys : List Char, sep ∉ xs → sep ∉ ys → jsSplit sep (xs ++ sep :: ys) = [xs, ys]
  | [], ys, _, hy => by simp [jsSplit, jsSplit_of_not_mem sep ys hy]
  | c :: xs, ys, hx, hy => by
    have h1 : ¬(c = sep) := by intro e; apply hx; simp [e]
    have h2 : sep ∉ xs := by intro hr; apply hx; simp [hr]
    simp [jsSplit, h1, jsSplit_single_sep sep xs ys h2 hy]

theorem comma_not_in_header (mime : String) (hc : ',' ∉ mime.toList) :
    ',' ∉ dataUrlHeader mime := by
  intro hmem
  simp only [dataUrlHeader, List.mem_append] at hmem
  rcases hmem with (h | h) | h
  · revert h; decide
  · exact hc h
  · revert h; decide

/-! ### Helper lemmas: the validator and the state machine -/

theorem validateShape_ok_iff {v w : Json} (h : validateShape v = Except.ok w) :
    w = v ∧ truthy v = true ∧ truthyOpt (v.getField "score") = true ∧
      truthyOpt (v.getField "corners") = true := by
  unfold validateShape at h
  split at h
  · exact absurd h (by simp)
  · rename_i hc
    simp only [Bool.or_eq_true, Bool.not_eq_true', not_or, Bool.not_eq_false] at hc
    injection h with h1
    exact ⟨h1.symm, hc.1.1, hc.1.2, hc.2⟩

theorem runPipeline_step_eq (st : SessionState) (f : JsFile) (gemini : Except String String) :
    (runPipeline st (some f) gemini).1.step =
      if pipelineOk f gemini then "result" else "upload" := by
  cases hE : getImageData (some f) with
  | error e => simp [runPipeline, pipelineOk, hE]
  | ok d =>
    cases gemini with
    | error e => simp [runPipeline, pipelineOk, hE]
    | ok r =>
      cases hp : processGeminiResponse r with
      | error m => simp [runPipeline, pipelineOk, hE, hp]
      | ok v => simp [runPipeline, pipelineOk, hE, hp]

/-! ### Claim theorems -/

/-- C1: every raw text in which the case-insensitive refusal scan fires (an
occurrence of "sorry" or of "unable to") makes `processGeminiResponse` fail
with the `NoSubjectDetectedError` message, whatever else — a complete JSON
object included — the text contains: the refusal check runs first and
short-circuits extraction, parsing and shape validation. -/
theorem refusal_marker_short_circuits (s : String) (h : refusalDetected s = true) :
    processGeminiResponse s = Except.error noSubjectDetectedMsg := by
  simp [processGeminiResponse, h]
  exact fun hx => absurd hx (by decide)

/-- C1 witness: a refusal sentence that also carries a complete JSON object
still fails with the `NoSubjectDetectedError` message. -/
theorem refusal_marker_short_circuits_witness :
    processGeminiResponse "Sorry. \x7b\"score\": 85, \"corners\": [1]\x7d" =
      Except.error noSubjectDetectedMsg :=
  refusal_marker_short_circuits _ rfl

/-- C2 counterexample: the raw text carrying the object with score 85 and an
empty corners array is accepted by `processGeminiResponse`, and the returned
record's corners collection is empty — an empty array is truthy in
JavaScript, so the claimed "at least one corner observation" invariant fails
on the code. -/
theorem empty_corners_record_accepted :
    processGeminiResponse "\x7b\"score\": 85, \"corners\": []\x7d" =
        Except.ok (Json.obj [("score", Json.num 85 0), ("corners", Json.arr [])]) ∧
      (Json.obj [("score", Json.num 85 0), ("corners", Json.arr [])]).getField "corners" =
        some (Json.arr []) :=
  ⟨rfl, rfl⟩

/-- C2 amended: every record returned by `processGeminiResponse` has a truthy
score field and a truthy (present, non-null) corners field — a record missing
either is rejected, never returned — but the corners collection itself may be
empty. -/
theorem validated_record_fields_truthy (s : String) (v : Json)
    (h : processGeminiResponse s = Except.ok v) :
    truthyOpt (v.getField "score") = true ∧ truthyOpt (v.getField "corners") = true := by
  cases hr : refusalDetected s with
  | true => simp [processGeminiResponse, hr] at h
  | false =>
    cases he : extractJson s.toList with
    | none =>
      have he' : extractJson s.data = none := he
      simp [processGeminiResponse, hr, he'] at h
    | some span =>
      have he' : extractJson s.data = some span := he
      cases hp : Json.parse span with
      | none => simp [processGeminiResponse, hr, he', hp] at h
      | some w =>
        simp only [processGeminiResponse, hr, he, he', hp, Bool.false_eq_true, if_false] at h
        cases hv : validateShape w with
        | error m => rw [hv] at h; exact absurd h (by simp)
        | ok u =>
          rw [hv] at h
          simp only [Except.ok.injEq] at h
          obtain ⟨h1, _, h3, h4⟩ := validateShape_ok_iff hv
          subst h
          rw [h1]
          exact ⟨h3, h4⟩

/-- C2 witness: the amended statement applied to the accepted
empty-corners record. -/
theorem validated_record_fields_truthy_witness :
    truthyOpt ((Json.obj [("score", Json.num 85 0),
        ("corners", Json.arr [])]).getField "score") = true ∧
      truthyOpt ((Json.obj [("score", Json.num 85 0),
        ("corners", Json.arr [])]).getField "corners") = true :=
  validated_record_fields_truthy "\x7b\"score\": 85, \"corners\": []\x7d" _ rfl

/-- C3 counterexample: from a result state holding a score and an analysis,
the "Analyze Another Samosa" click moves the step to "upload" but leaves both
the score and the analysis stored — they are not cleared by this
transition. -/
theorem analyze_another_keeps_record :
    (analyzeAnotherClick resultStateEx).step = "upload" ∧
      (analyzeAnotherClick resultStateEx).score = some (Json.num 85 0) ∧
      ¬((analyzeAnotherClick resultStateEx).analysis = none) := by
  refine ⟨rfl, rfl, ?_⟩
  simp [analyzeAnotherClick, resultStateEx]

/-- C3 amended: the "Analyze Another Samosa" click sets the step to "upload"
and changes nothing else: the prior score, analysis record and image survive
the transition (they are cleared only when the next file is selected). -/
theorem analyze_another_only_resets_step (st : SessionState) :
    (analyzeAnotherClick st).step = "upload" ∧
      (analyzeAnotherClick st).score = st.score ∧
      (analyzeAnotherClick st).analysis = st.analysis ∧
      (analyzeAnotherClick st).image = st.image :=
  ⟨rfl, rfl, rfl, rfl⟩

/-- C4 counterexample: the no-braces reply and the reply whose braced span
fails to parse produce two different error messages, so the two failure
cases are distinguishable by the caller — they are not folded into one
indistinguishable error. -/
theorem payload_failure_messages_differ :
    processGeminiResponse "I see a triangular pastry but cannot quantify it." =
        Except.error noStructuredPayloadMsg ∧
      processGeminiResponse "\x7binvalid\x7d" = Except.error parseFailureMsg ∧
      noStructuredPayloadMsg ≠ parseFailureMsg :=
  ⟨rfl, rfl, by decide⟩

/-- C4 amended: with no refusal marker, a reply with no braced span fails
with the `NoStructuredPayloadError` message, and a reply whose extracted
braced span fails to parse also fails, but with the distinct message the
catch block substitutes for a parse `SyntaxError` — both are unusable-reply
failures, yet the caller can tell them apart by message. -/
theorem payload_failure_two_messages :
    (∀ s : String, refusalDetected s = false → extractJson s.toList = none →
      processGeminiResponse s = Except.error noStructuredPayloadMsg) ∧
    (∀ (s : String) (span : List Char), refusalDetected s = false →
      extractJson s.toList = some span → Json.parse span = none →
      processGeminiResponse s = Except.error parseFailureMsg) := by
  constructor
  · intro s hr he
    have he' : extractJson s.data = none := he
    simp [processGeminiResponse, hr, he, he']
    exact fun hx => absurd hx (by decide)
  · intro s span hr he hp
    have he' : extractJson s.data = some span := he
    simp [processGeminiResponse, hr, he, he', hp]
    exact fun hx => absurd hx (by decide)

/-- C4 witness: both branches of the amended statement at concrete
inputs. -/
theorem payload_failure_two_messages_witness :
    processGeminiResponse "no braces at all here" = Except.error noStructuredPayloadMsg ∧
      processGeminiResponse "\x7bnope\x7d" = Except.error parseFailureMsg :=
  ⟨payload_failure_two_messages.1 "no braces at all here" rfl rfl,
   payload_failure_two_messages.2 "\x7bnope\x7d" "\x7bnope\x7d".toList rfl rfl rfl⟩

/-- C5: whenever the extracted braced span parses to a value whose score
field or corners field is missing or falsy, `processGeminiResponse` fails
with the `InvalidAnalysisShapeError` message. -/
theorem missing_required_field_rejected (s : String) (span : List Char) (v : Json)
    (h1 : refusalDetected s = false)
    (h2 : extractJson s.toList = some span)
    (h3 : Json.parse span = some v)
    (h4 : truthyOpt (v.getField "score") = false ∨
      truthyOpt (v.getField "corners") = false) :
    processGeminiResponse s = Except.error invalidAnalysisShapeMsg := by
  have h2' : extractJson s.data = some span := h2
  have hshape : validateShape v = Except.error invalidAnalysisShapeMsg := by
    rcases h4 with h4 | h4 <;> simp [validateShape, h4]
  simp [processGeminiResponse, h1, h2, h2', h3, hshape]
  exact fun hx => absurd hx (by decide)

/-- C5 witness: the specification's score-absent example fails with the
`InvalidAnalysisShapeError` message. -/
theorem missing_required_field_rejected_witness :
    processGeminiResponse
        "\x7b\"corners\": [\x7b\"name\":\"Top\",\"angle\":60,\"comment\":\"Crispy\"\x7d]\x7d" =
      Except.error invalidAnalysisShapeMsg :=
  missing_required_field_rejected _
    "\x7b\"corners\": [\x7b\"name\":\"Top\",\"angle\":60,\"comment\":\"Crispy\"\x7d]\x7d".toList
    (Json.obj [("corners", Json.arr [cornerObsEx])]) rfl rfl rfl (Or.inl rfl)

/-- C6: the specification's worked success example — prose followed by the
object with score 85 and one corner — validates to exactly that record. -/
theorem embedded_payload_success :
    processGeminiResponse
        "Here you go: \x7b\"score\": 85, \"corners\": [\x7b\"name\":\"Top\",\"angle\":60,\"comment\":\"Crispy\"\x7d]\x7d" =
      Except.ok (Json.obj [("score", Json.num 85 0), ("corners", Json.arr [cornerObsEx])]) := by
  rfl

/-- C7: for an absent file or one whose declared media type is not an image
type, the encoder fails with the `InvalidInputError` message, and a pipeline
run on such input never issues the external analyze call. -/
theorem invalid_input_no_network (file : Option JsFile)
    (h : file = none ∨ ∃ f, file = some f ∧ isImageType f.type = false) :
    getImageData file = Except.error invalidInputMsg ∧
      ∀ (st : SessionState) (gemini : Except String String),
        (runPipeline st file gemini).2 = false := by
  rcases h with h | ⟨f, rfl, hf⟩
  · subst h
    exact ⟨rfl, fun st g => rfl⟩
  · constructor
    · simp [getImageData, hf]
    · intro st g
      simp [runPipeline, getImageData, hf]

/-- C7 witness: a text file is rejected by the encoder and its pipeline run
issues no external call. -/
theorem invalid_input_no_network_witness :
    getImageData (some badFileEx) = Except.error invalidInputMsg ∧
      (runPipeline initState (some badFileEx) (Except.ok "raw")).2 = false := by
  have h := invalid_input_no_network (some badFileEx) (Or.inr ⟨badFileEx, rfl, rfl⟩)
  exact ⟨h.1, h.2 initState (Except.ok "raw")⟩

/-- C8: a completed processing of a selected file ends with the step at
"result" or at "upload" — never at "analyzing" — and it ends at "result"
exactly when the encode step, the external call and the validation all
succeed. -/
theorem completed_run_terminal_step (st : SessionState) (f : JsFile)
    (gemini : Except String String) :
    ((runPipeline st (some f) gemini).1.step = "result" ∨
        (runPipeline st (some f) gemini).1.step = "upload") ∧
      ¬((runPipeline st (some f) gemini).1.step = "analyzing") ∧
      ((runPipeline st (some f) gemini).1.step = "result" ↔ pipelineOk f gemini = true) := by
  rw [runPipeline_step_eq]
  cases h : pipelineOk f gemini <;> simp

/-- C9: for a valid image file (image media type without a comma, non-empty
byte contents), the encoder returns exactly the base64 payload of the file's
bytes with the data-URI header stripped, and base64-decoding that payload
recovers the original bytes — the round-trip law. -/
theorem encode_decode_roundtrip (f : JsFile)
    (himg : isImageType f.type = true)
    (hcomma : ',' ∉ f.type.toList)
    (hne : f.bytes ≠ [])
    (hbytes : ∀ b ∈ f.bytes, b < 256) :
    getImageData (some f) = Except.ok (b64encode f.bytes) ∧
      b64decode (b64encode f.bytes) = f.bytes := by
  have hsplit : jsSplit ',' (dataUrl f) = [dataUrlHeader f.type, b64encode f.bytes] :=
    jsSplit_single_sep ',' _ _ (comma_not_in_header f.type hcomma)
      (comma_not_in_b64encode f.bytes hbytes)
  constructor
  · simp [getImageData, himg, hsplit, List.isEmpty_iff, b64encode_ne_nil f.bytes hne]
  · exact b64decode_b64encode f.bytes hbytes

/-- C9 witness: a three-byte PNG round-trips through the encoder. -/
theorem encode_decode_roundtrip_witness :
    getImageData (some { type := "image/png", bytes := [1, 2, 3] }) =
        Except.ok (b64encode [1, 2, 3]) ∧
      b64decode (b64encode [1, 2, 3]) = [1, 2, 3] :=
  encode_decode_roundtrip { type := "image/png", bytes := [1, 2, 3] } rfl (by decide)
    (by decide) (by decide)

/-- C10: a parsed payload whose score field is the number 0 — inside the
intended 0 to 100 range — with a corners array present is nevertheless
rejected with the `InvalidAnalysisShapeError` message, because the shape
check requires a truthy score and 0 is falsy. -/
theorem zero_score_rejected (s : String) (span : List Char) (v : Json) (e : Int)
    (cs : List Json)
    (h1 : refusalDetected s = false)
    (h2 : extractJson s.toList = some span)
    (h3 : Json.parse span = some v)
    (h4 : v.getField "score" = some (Json.num 0 e))
    (_h5 : v.getField "corners" = some (Json.arr cs)) :
    processGeminiResponse s = Except.error invalidAnalysisShapeMsg := by
  have h2' : extractJson s.data = some span := h2
  have hshape : validateShape v = Except.error invalidAnalysisShapeMsg := by
    simp [validateShape, h4, truthyOpt, truthy]
  simp [processGeminiResponse, h1, h2, h2', h3, hshape]
  exact fun hx => absurd hx (by decide)

/-- C10 witness: a payload with score 0 and one corner observation is
rejected. -/
theorem zero_score_rejected_witness :
    processGeminiResponse
        "\x7b\"score\": 0, \"corners\": [\x7b\"name\":\"Top\",\"angle\":60,\"comment\":\"Crispy\"\x7d]\x7d" =
      Except.error invalidAnalysisShapeMsg :=
  zero_score_rejected _
    "\x7b\"score\": 0, \"corners\": [\x7b\"name\":\"Top\",\"angle\":60,\"comment\":\"Crispy\"\x7d]\x7d".toList
    (Json.obj [("score", Json.num 0 0), ("corners", Json.arr [cornerObsEx])]) 0 [cornerObsEx]
    rfl rfl rfl rfl rfl

end Samosa
